import Mathlib

/-!
Verification development for the COG/TIFF pyramid writer
(source file: libs/algo/odc/algo/_tiff.py).

The development shallowly embeds the parts of the source the claims
touch: the numeric element types handled by the downsampler, the
NumPy-style 2-D arrays it slices and adds (with broadcasting), the
ROI/window halving function, the raster descriptor model, the pyramid
level-chain construction loop, the windowed-write entry point of
TIFFSink, and the resource-lifecycle of a TIFFSink built on a
transient in-memory destination.

Machine integers are modelled as Int with explicit two-complement
wrapping at the width of the NumPy dtype involved; NumPy true division
by 4 followed by an integer cast is modelled as exact division with
truncation toward zero (the float64 intermediate is exact for every
value reachable at the modelled widths, which are at most 32 bits).
Fallible operations return Option or Except.
-/

/-- Fixed-width NumPy element types that can appear as the dtype of a
block fed to the downsampler.  Floating-point dtypes are outside this
embedding; 64-bit integer dtypes are omitted because the float64
intermediate of the division would no longer be exact for them. -/
inductive DType where
  | uint8
  | int8
  | uint16
  | int16
  | uint32
  | int32
deriving DecidableEq

/-- Width of the dtype in bits. -/
def DType.bits : DType → Nat
  | .uint8 => 8
  | .int8 => 8
  | .uint16 => 16
  | .int16 => 16
  | .uint32 => 32
  | .int32 => 32

/-- NumPy dtype.itemsize: width in bytes. -/
def DType.itemsize (d : DType) : Nat := d.bits / 8

/-- Smallest representable value of the dtype. -/
def DType.minVal : DType → Int
  | .uint8 => 0
  | .int8 => -128
  | .uint16 => 0
  | .int16 => -32768
  | .uint32 => 0
  | .int32 => -2147483648

/-- Largest representable value of the dtype. -/
def DType.maxVal : DType → Int
  | .uint8 => 255
  | .int8 => 127
  | .uint16 => 65535
  | .int16 => 32767
  | .uint32 => 4294967295
  | .int32 => 2147483647

/-- Number of distinct values of the dtype, 2 ^ bits, as a literal. -/
def DType.modulus : DType → Int
  | .uint8 => 256
  | .int8 => 256
  | .uint16 => 65536
  | .int16 => 65536
  | .uint32 => 4294967296
  | .int32 => 4294967296

/-- The integer x is representable in dtype d. -/
def DType.inRange (d : DType) (x : Int) : Prop := d.minVal ≤ x ∧ x ≤ d.maxVal

instance (d : DType) (x : Int) : Decidable (d.inRange x) := by
  unfold DType.inRange; infer_instance

/-- Reduction of an arbitrary integer into dtype d by two-complement
wrapping; this is what NumPy integer arithmetic does on overflow and
what an integer astype does. -/
def wrap (d : DType) (x : Int) : Int := (x - d.minVal) % d.modulus + d.minVal

/-- Accumulator dtype picked by COGSink.shrink2: the source line
`wk_dtype = "int32" if xx.dtype.itemsize <= 2 else xx.dtype`. -/
def wkDtype (d : DType) : DType := if d.itemsize ≤ 2 then DType.int32 else d

/-- Integer division of x by 4 rounding toward zero.  This models the
source expression `(temp / 4).astype(xx.dtype)` before the final cast:
NumPy true division of an integer array by 4 yields float64, which is
exact for |x| < 2 ^ 53 (every value reachable at the modelled widths),
and the integer astype then truncates toward zero. -/
def truncDiv4 (x : Int) : Int := if 0 ≤ x then x / 4 else -(-x / 4)

/-! ## Windows / ROIs (source: roi_shrink2) -/

mutual
/-- A window component as accepted by roi_shrink2: an integer index, a
slice with optional start/stop/step, or a tuple of components. -/
inductive ROI where
  | idx (i : Int)
  | slc (start stop step : Option Int)
  | tup (rs : ROIList)
/-- A list of ROI components, as the tuple case of roi_shrink2. -/
inductive ROIList where
  | nil
  | cons (r : ROI) (rs : ROIList)
end

/-- The inner helper maybe_div2 of roi_shrink2: floor-halve a slice
bound, keeping None as None.  Python floor division by the positive
constant 2 is Int division in Lean (both round toward minus
infinity for a positive divisor). -/
def maybe_div2 (x : Option Int) : Option Int :=
  match x with
  | none => none
  | some v => some (v / 2)

mutual
/-- Source function roi_shrink2: halve an index by floor division,
halve each given bound of a slice, and map over tuples recursively. -/
def roi_shrink2 : ROI → ROI
  | .idx i => .idx (i / 2)
  | .slc a b c => .slc (maybe_div2 a) (maybe_div2 b) (maybe_div2 c)
  | .tup rs => .tup (roi_shrink2_list rs)
/-- Elementwise roi_shrink2 on a tuple of components. -/
def roi_shrink2_list : ROIList → ROIList
  | .nil => .nil
  | .cons r rs => .cons (roi_shrink2 r) (roi_shrink2_list rs)
end

/-- Modelled from the claim wording for comparison (claim C7): the ROI
whose every specified integer component equals the corresponding
original component floor-divided by 4, with unspecified (None)
components preserved as unspecified. -/
def maybe_div4 (x : Option Int) : Option Int :=
  match x with
  | none => none
  | some v => some (v / 4)

mutual
/-- Modelled from the claim wording for comparison (claim C7):
componentwise floor division by 4. -/
def roiDiv4 : ROI → ROI
  | .idx i => .idx (i / 4)
  | .slc a b c => .slc (maybe_div4 a) (maybe_div4 b) (maybe_div4 c)
  | .tup rs => .tup (roiDiv4_list rs)
/-- Elementwise roiDiv4 on a tuple of components. -/
def roiDiv4_list : ROIList → ROIList
  | .nil => .nil
  | .cons r rs => .cons (roiDiv4 r) (roiDiv4_list rs)
end

/-! ## NumPy 2-D arrays, as used by COGSink.shrink2 -/

/-- A NumPy 2-D array: a dtype, a shape, and the element at each index
pair (values outside the shape are irrelevant junk). -/
structure NArr where
  dtype : DType
  rows : Nat
  cols : Nat
  data : Nat → Nat → Int

/-- Row slicing xx[off::2, :]: rows off, off+2, off+4, ... The number
of selected rows is ceil((rows - off) / 2). -/
def sliceRows (a : NArr) (off : Nat) : NArr :=
  ⟨a.dtype, (a.rows - off + 1) / 2, a.cols, fun i j => a.data (off + 2 * i) j⟩

/-- Column slicing a[:, off::2]. -/
def sliceCols (a : NArr) (off : Nat) : NArr :=
  ⟨a.dtype, a.rows, (a.cols - off + 1) / 2, fun i j => a.data i (off + 2 * j)⟩

/-- NumPy broadcasting of one axis: dimensions must be equal or one of
them must be 1 (which is then stretched). -/
def bcastDim (m n : Nat) : Option Nat :=
  if m = n then some m else if m = 1 then some n else if n = 1 then some m else none

/-- Index into an axis of extent dim under broadcasting: an axis of
extent 1 is read at 0 regardless of the requested index. -/
def bidx (dim i : Nat) : Nat := if dim = 1 then 0 else i

/-- NumPy astype on every element of an array (integer casts wrap). -/
def astypeArr (d : DType) (a : NArr) : NArr :=
  ⟨d, a.rows, a.cols, fun i j => wrap d (a.data i j)⟩

/-- NumPy elementwise + of two arrays of the same dtype: broadcast the
shapes (failing with a ValueError, modelled as none, when they are
incompatible) and wrap each elementwise sum at the common dtype. -/
def addB (a b : NArr) : Option NArr :=
  match bcastDim a.rows b.rows, bcastDim a.cols b.cols with
  | some r, some c =>
      some ⟨a.dtype, r, c, fun i j =>
        wrap a.dtype (a.data (bidx a.rows i) (bidx a.cols j) +
          b.data (bidx b.rows i) (bidx b.cols j))⟩
  | _, _ => none

/-- The source expression `(temp / 4).astype(dtype)`: exact division
by 4 truncated toward zero, then cast (with wrapping) to dtype. -/
def divCast (d : DType) (a : NArr) : NArr :=
  ⟨d, a.rows, a.cols, fun i j => wrap d (truncDiv4 (a.data i j))⟩

/-- Array part of COGSink.shrink2, following the source line by line:
pick the accumulator dtype, add the even and odd row slices after
astype to the accumulator dtype, add the even and odd column slices of
the intermediate, divide by 4 and cast back to the input dtype.  The
result is none exactly when one of the two additions fails to
broadcast. -/
def COGSink.shrink2Arr (xx : NArr) : Option NArr :=
  let wk := wkDtype xx.dtype
  match addB (astypeArr wk (sliceRows xx 0)) (astypeArr wk (sliceRows xx 1)) with
  | none => none
  | some temp =>
    match addB (sliceCols temp 0) (sliceCols temp 1) with
    | none => none
    | some t2 => some (divCast xx.dtype t2)

/-- Source method COGSink.shrink2: halve the ROI with roi_shrink2 and
box-filter the block. -/
def COGSink.shrink2 (xx : NArr) (roi : ROI) : Option (ROI × NArr) :=
  match COGSink.shrink2Arr xx with
  | none => none
  | some arr => some (roi_shrink2 roi, arr)

/-- Observable part of a downsampling result: shape and the element at
index (0, 0). -/
def obsArr (o : Option NArr) : Option (Nat × Nat × Int) :=
  o.map fun t => (t.rows, t.cols, t.data 0 0)

/-- Concrete 2x2 block [[a, b], [c, e]] of the given dtype. -/
def mk2x2 (d : DType) (a b c e : Int) : NArr :=
  ⟨d, 2, 2, fun i j => if i = 0 then (if j = 0 then a else b) else (if j = 0 then c else e)⟩

/-! ## Raster descriptor (source: GeoRasterInfo) -/

/-- Raster descriptor GeoRasterInfo.  The claims only touch width,
height, band count, dtype and nodata; the CRS string and the affine
transform (floating-point coefficients) are outside this embedding. -/
structure GeoRasterInfo where
  width : Nat
  height : Nat
  count : Nat
  dtype : DType
  nodata : Option Int
deriving DecidableEq

/-- Source method GeoRasterInfo.shrink2: floor-halve width and height,
keep count, dtype and nodata (the transform scaling is outside this
embedding). -/
def GeoRasterInfo.shrink2 (ii : GeoRasterInfo) : GeoRasterInfo :=
  { ii with width := ii.width / 2, height := ii.height / 2 }

/-- Errors GeoRasterInfo.from_xarray can raise.  In the source,
missingGeobox and shapeMismatch are ValueError (the ConfigurationError
of the specification); unboundCount models the NameError a Python
input of dimension other than 2 or 3 would hit, since no branch of the
source assigns count for such inputs. -/
inductive CfgError where
  | missingGeobox
  | shapeMismatch
  | unboundCount
deriving DecidableEq

/-- Input of GeoRasterInfo.from_xarray: a labeled array exposing a
shape, a dtype, an optional geobox (whose shape is (height, width))
and an optional nodata value. -/
structure XArray where
  shape : List Nat
  dtype : DType
  geobox : Option (Nat × Nat)
  nodata : Option Int

/-- Source method GeoRasterInfo.from_xarray, kept branch for branch:
fail when the geobox is absent; a 2-D input has count 1; for a 3-D
input compare shape[:2] and then shape[1:] against (height, width) and
take count = shape[0] respectively count = shape[2]; otherwise fail. -/
def GeoRasterInfo.from_xarray (xx : XArray) : Except CfgError GeoRasterInfo :=
  match xx.geobox with
  | none => Except.error CfgError.missingGeobox
  | some hw =>
    let height := hw.1
    let width := hw.2
    match xx.shape with
    | [_, _] => Except.ok ⟨width, height, 1, xx.dtype, xx.nodata⟩
    | [s0, s1, s2] =>
      if s0 = height ∧ s1 = width then
        Except.ok ⟨width, height, s0, xx.dtype, xx.nodata⟩
      else if s1 = height ∧ s2 = width then
        Except.ok ⟨width, height, s2, xx.dtype, xx.nodata⟩
      else Except.error CfgError.shapeMismatch
    | _ => Except.error CfgError.unboundCount

/-! ## Pyramid level chain (source: COGSink.__init__) -/

/-- Stopping condition of the level-construction loop, checked on the
level that was just created: odd width, or odd height, or smaller
dimension below the overview block size. -/
def stopCond (bsz : Nat) (ii : GeoRasterInfo) : Prop :=
  (ii.width % 2 ≠ 0 ∨ ii.height % 2 ≠ 0) ∨ min ii.width ii.height < bsz

instance (bsz : Nat) (ii : GeoRasterInfo) : Decidable (stopCond bsz ii) := by
  unfold stopCond; infer_instance

/-- The level-construction loop of COGSink.__init__, with the
iteration count of `for _ in range(7 + 1)` as fuel: create a sink for
the current descriptor, stop if it has an odd dimension, stop if its
smaller dimension is below the overview block size, else continue with
the halved descriptor.  Returns the descriptors of the created levels
in order. -/
def COGSink.buildLevels : Nat → Nat → GeoRasterInfo → List GeoRasterInfo
  | 0, _, _ => []
  | fuel + 1, bsz, ii =>
    ii :: (if ii.width % 2 ≠ 0 ∨ ii.height % 2 ≠ 0 then []
      else if min ii.width ii.height < bsz then []
      else COGSink.buildLevels fuel bsz ii.shrink2)

/-- Descriptors of the level chain a COGSink builds at construction
for a full-resolution descriptor and an overview block size. -/
def COGSink.levels (info : GeoRasterInfo) (ovr_blocksize : Nat) : List GeoRasterInfo :=
  COGSink.buildLevels 8 ovr_blocksize info

/-! ## Windowed writes (source: TIFFSink.__setitem__) -/

/-- Opaque model of rasterio.windows.Window.from_slices: the backend
resolves the key against the full raster extent; the core only passes
it through, so the window is modelled as the tuple of its inputs. -/
structure Window where
  key : List ROI
  height : Nat
  width : Nat

/-- Constructor of the opaque window model. -/
def Window.from_slices (key : List ROI) (height width : Nat) : Window :=
  ⟨key, height, width⟩

/-- State of a TIFFSink destination: the sequence of block writes
performed on it, each carrying the band index, the window and the
block (the backend write-block call of the specification). -/
structure TIFFSinkState where
  writes : List (Nat × Window × NArr)

/-- Exceptions TIFFSink.__setitem__ can raise: the failed assert for
an axis count other than 2 or 3, the NotImplementedError for 3-axis
keys, and the ValueError of the (dead) final else branch. -/
inductive PyErr where
  | assertionError
  | notImplementedError
  | valueError
deriving DecidableEq

/-- Source method TIFFSink.__setitem__, kept branch for branch:
`assert ndim in (2, 3)` fails first for any other axis count; a 2-axis
key writes the single block to band 1 through the window derived from
the key; a 3-axis key raises NotImplementedError; the final
`raise ValueError` branch is unreachable (the assert fires first), and
is modelled faithfully as such.  Blocks are 2-D arrays in this
embedding, so the `assert item.ndim == 2` of the 2-axis branch always
passes; the internal lock only serializes concurrent callers and is
outside this single-call model. -/
def TIFFSink.setitem (info : GeoRasterInfo) (st : TIFFSinkState) (key : List ROI)
    (item : NArr) : Except PyErr TIFFSinkState :=
  let ndim := key.length
  if ndim = 2 ∨ ndim = 3 then
    if ndim = 2 then
      let win := Window.from_slices key info.height info.width
      Except.ok ⟨st.writes ++ [(1, win, item)]⟩
    else if ndim = 3 then
      Except.error PyErr.notImplementedError
    else
      Except.error PyErr.valueError
  else
    Except.error PyErr.assertionError

/-! ## Resource lifecycle of a TIFFSink on a transient destination
(source: TIFFSink.__init__ with dst = ":mem:", close, __del__) -/

/-- Resource state of a TIFFSink: whether the opened dataset handle
self._out has been closed, whether self._mem_mine still holds the
transient MemoryFile the sink created for the ":mem:" destination, and
whether that MemoryFile has been closed. -/
structure TIFFSinkRes where
  outClosed : Bool
  memMine : Bool
  memMineClosed : Bool
deriving DecidableEq

/-- Resource state right after TIFFSink.__init__ with dst = ":mem:":
the sink creates a MemoryFile, opens the dataset inside it, and
remembers the MemoryFile in self._mem_mine. -/
def TIFFSink.initMem : TIFFSinkRes := ⟨false, true, false⟩

/-- Source method TIFFSink.close: it only closes self._out (the
backend close of an already closed dataset is a no-op); it does not
touch self._mem_mine. -/
def TIFFSink.close (s : TIFFSinkRes) : TIFFSinkRes := { s with outClosed := true }

/-- Source finalizer TIFFSink.__del__: calls close, then closes the
transient MemoryFile if self._mem_mine is set, and clears
self._mem_mine so a second finalizer run does not close it again. -/
def TIFFSink.del (s : TIFFSinkRes) : TIFFSinkRes :=
  let s2 := TIFFSink.close s
  if s2.memMine then { s2 with memMineClosed := true, memMine := false } else s2

/-! ## Concrete inputs used by witnesses and counterexamples -/

/-- Concrete 1024 x 1024 single-band uint16 descriptor (scenario A). -/
def infoA : GeoRasterInfo := ⟨1024, 1024, 1, DType.uint16, none⟩

/-- Concrete descriptor for the sink write examples. -/
def infoW : GeoRasterInfo := ⟨200, 100, 3, DType.uint8, none⟩

/-- Empty write log. -/
def st0 : TIFFSinkState := ⟨[]⟩

/-- A 2-axis key (two full slices). -/
def key2 : List ROI := [ROI.slc none none none, ROI.slc none none none]

/-- A 4-axis key. -/
def key4 : List ROI :=
  [ROI.slc none none none, ROI.slc none none none,
   ROI.slc none none none, ROI.slc none none none]

/-- Concrete 2x2 uint8 block. -/
def item0 : NArr := mk2x2 DType.uint8 1 2 3 4

/-- Write log after one successful 2-axis write on st0. -/
def st1 : TIFFSinkState :=
  ⟨st0.writes ++ [(1, Window.from_slices key2 infoW.height infoW.width, item0)]⟩

/-- Concrete 5 x 2 zero block (odd number of rows). -/
def arr5x2 : NArr := ⟨DType.uint8, 5, 2, fun _ _ => 0⟩

/-! ## Helper lemmas -/

/-- Auxiliary arithmetic: halving twice is dividing by 4 and keeps
None unspecified, at the level of optional slice bounds. -/
theorem maybe_div2_twice (x : Option Int) : maybe_div2 (maybe_div2 x) = maybe_div4 x := by
  cases x with
  | none => rfl
  | some v =>
    simp only [maybe_div2, maybe_div4, Option.some.injEq]
    omega

mutual
/-- Structural induction for the double-halving law on a component. -/
theorem roi_shrink2_twice_aux : ∀ r : ROI, roi_shrink2 (roi_shrink2 r) = roiDiv4 r
  | .idx i => by
      simp only [roi_shrink2, roiDiv4, ROI.idx.injEq]
      omega
  | .slc a b c => by
      simp only [roi_shrink2, roiDiv4, ROI.slc.injEq]
      exact ⟨maybe_div2_twice a, maybe_div2_twice b, maybe_div2_twice c⟩
  | .tup rs => by
      simp only [roi_shrink2, roiDiv4, ROI.tup.injEq]
      exact roi_shrink2_twice_list_aux rs
/-- Structural induction for the double-halving law on a tuple. -/
theorem roi_shrink2_twice_list_aux :
    ∀ rs : ROIList, roi_shrink2_list (roi_shrink2_list rs) = roiDiv4_list rs
  | .nil => rfl
  | .cons r rs => by
      simp only [roi_shrink2_list, roiDiv4_list, ROIList.cons.injEq]
      exact ⟨roi_shrink2_twice_aux r, roi_shrink2_twice_list_aux rs⟩
end

/-- Every fuel value of at least 1 creates at least one level. -/
theorem buildLevels_length_pos (fuel bsz : Nat) (ii : GeoRasterInfo) (h : 0 < fuel) :
    0 < (COGSink.buildLevels fuel bsz ii).length := by
  cases fuel with
  | zero => omega
  | succ n => simp [COGSink.buildLevels]

/-- The loop creates at most fuel levels. -/
theorem buildLevels_length_le (fuel bsz : Nat) (ii : GeoRasterInfo) :
    (COGSink.buildLevels fuel bsz ii).length ≤ fuel := by
  induction fuel generalizing ii with
  | zero => simp [COGSink.buildLevels]
  | succ n ih =>
    simp only [COGSink.buildLevels, List.length_cons]
    split
    · simp
    · split
      · simp
      · exact Nat.succ_le_succ (ih _)

/-- No level other than the last satisfies the stopping condition. -/
theorem buildLevels_mid (fuel bsz : Nat) :
    ∀ (ii d0 : GeoRasterInfo) (i : Nat),
      i + 1 < (COGSink.buildLevels fuel bsz ii).length →
      ¬ stopCond bsz ((COGSink.buildLevels fuel bsz ii).getD i d0) := by
  induction fuel with
  | zero =>
    intro ii d0 i h
    simp [COGSink.buildLevels] at h
  | succ n ih =>
    intro ii d0 i h
    simp only [COGSink.buildLevels] at h ⊢
    by_cases h1 : ii.width % 2 ≠ 0 ∨ ii.height % 2 ≠ 0
    · rw [if_pos h1] at h
      simp at h
    · rw [if_neg h1] at h ⊢
      by_cases h2 : min ii.width ii.height < bsz
      · rw [if_pos h2] at h
        simp at h
      · rw [if_neg h2] at h ⊢
        cases i with
        | zero =>
          simp only [List.getD_cons_zero]
          intro hs
          rcases hs with hodd | hmin
          · exact h1 hodd
          · exact h2 hmin
        | succ k =>
          simp only [List.getD_cons_succ]
          apply ih
          simp only [List.length_cons] at h
          omega

/-- When the loop stops before exhausting its fuel, the last created
level satisfies the stopping condition. -/
theorem buildLevels_last (fuel bsz : Nat) :
    ∀ (ii d0 : GeoRasterInfo),
      (COGSink.buildLevels fuel bsz ii).length < fuel →
      stopCond bsz ((COGSink.buildLevels fuel bsz ii).getLastD d0) := by
  induction fuel with
  | zero =>
    intro ii d0 h
    omega
  | succ n ih =>
    intro ii d0 h
    simp only [COGSink.buildLevels] at h ⊢
    by_cases h1 : ii.width % 2 ≠ 0 ∨ ii.height % 2 ≠ 0
    · rw [if_pos h1]
      rw [List.getLastD_cons d0 ii []]
      exact Or.inl h1
    · rw [if_neg h1] at h ⊢
      by_cases h2 : min ii.width ii.height < bsz
      · rw [if_pos h2]
        rw [List.getLastD_cons d0 ii []]
        exact Or.inr h2
      · rw [if_neg h2] at h ⊢
        rw [List.getLastD_cons d0 ii _]
        apply ih
        simp only [List.length_cons] at h
        omega

/-! ## Claim theorems -/

/-- Claim C3: for every full-resolution descriptor with positive width
and height and every positive overview block size, COGSink
construction creates between 1 and 8 levels inclusive, no level other
than the last satisfies the stopping condition (odd width or height,
or smaller dimension below the overview block size), a chain shorter
than 8 levels ends in a level satisfying the stopping condition, and a
101 x 101 descriptor yields exactly 1 level for every band count,
dtype, nodata and overview block size. -/
theorem cog_level_chain_policy (info : GeoRasterInfo) (bsz : Nat)
    (hw : 0 < info.width) (hh : 0 < info.height) (hb : 0 < bsz) :
    (1 ≤ (COGSink.levels info bsz).length ∧ (COGSink.levels info bsz).length ≤ 8) ∧
    (∀ i, i + 1 < (COGSink.levels info bsz).length →
      ¬ stopCond bsz ((COGSink.levels info bsz).getD i info)) ∧
    ((COGSink.levels info bsz).length < 8 →
      stopCond bsz ((COGSink.levels info bsz).getLastD info)) ∧
    (∀ (cnt : Nat) (dt : DType) (nd : Option Int) (bsz2 : Nat),
      (COGSink.levels ⟨101, 101, cnt, dt, nd⟩ bsz2).length = 1) := by
  refine ⟨⟨buildLevels_length_pos 8 bsz info (by omega), buildLevels_length_le 8 bsz info⟩,
    fun i h => buildLevels_mid 8 bsz info info i h,
    fun h => buildLevels_last 8 bsz info info h,
    fun cnt dt nd bsz2 => ?_⟩
  simp [COGSink.levels, COGSink.buildLevels]

/-- Claim C3 witness: the chain policy instantiated at the concrete
1024 x 1024 single-band uint16 descriptor with block size 512. -/
theorem cog_level_chain_policy_witness :
    1 ≤ (COGSink.levels infoA 512).length ∧ (COGSink.levels infoA 512).length ≤ 8 :=
  (cog_level_chain_policy infoA 512 (by decide) (by decide) (by decide)).1

/-- Claim C4 counterexample: the level chain of a 1024 x 1024
single-band uint16 descriptor with default block sizes does not have
two levels (it has three: the level whose smaller dimension first
falls below the overview block size is itself still created, and only
then does the loop stop). -/
theorem cog_levels_1024_not_two : (COGSink.levels infoA 512).length ≠ 2 := by decide

/-- Claim C4 (amended): the level chain of a 1024 x 1024 single-band
uint16 descriptor with default block size 512 and default overview
block size 512 consists of exactly three levels, of width/height 1024,
512 and 256, and no further level is created. -/
theorem cog_levels_1024_exact :
    COGSink.levels infoA 512 =
      [⟨1024, 1024, 1, DType.uint16, none⟩,
       ⟨512, 512, 1, DType.uint16, none⟩,
       ⟨256, 256, 1, DType.uint16, none⟩] := by decide

/-- Claim C5, evaluation of the code at the failing inputs: for a 3-D
input whose last two axes equal (height, width) = (100, 200), the
source infers count = shape[2] = 200 (the width) where the claim
requires the first axis length 3; for a 3-D input whose first two axes
equal (height, width), the source infers count = shape[0] = 100 (the
height) where the claim requires the last axis length 3.  The error
cases of the claim (no matching arrangement, missing geobox) do hold. -/
theorem from_xarray_count_eval :
    GeoRasterInfo.from_xarray ⟨[3, 100, 200], DType.uint8, some (100, 200), none⟩ =
      Except.ok ⟨200, 100, 200, DType.uint8, none⟩ ∧
    GeoRasterInfo.from_xarray ⟨[100, 200, 3], DType.uint8, some (100, 200), none⟩ =
      Except.ok ⟨200, 100, 100, DType.uint8, none⟩ ∧
    GeoRasterInfo.from_xarray ⟨[7, 100, 200], DType.uint8, some (100, 201), none⟩ =
      Except.error CfgError.shapeMismatch ∧
    GeoRasterInfo.from_xarray ⟨[3, 100, 200], DType.uint8, none, none⟩ =
      Except.error CfgError.missingGeobox :=
  ⟨rfl, rfl, rfl, rfl⟩

/-- Claim C8: a windowed write whose key has an axis count other than
2 or 3 fails (the assert raises before anything is written, so the
destination is unmodified — an error result carries no new state), and
a 3-axis key passes the assert but fails with NotImplementedError (the
UnsupportedOperation of the specification). -/
theorem tiffsink_setitem_axis_count_errors (info : GeoRasterInfo) (st : TIFFSinkState)
    (key : List ROI) (item : NArr) :
    (key.length ≠ 2 → key.length ≠ 3 →
      TIFFSink.setitem info st key item = Except.error PyErr.assertionError) ∧
    (key.length = 3 →
      TIFFSink.setitem info st key item = Except.error PyErr.notImplementedError) := by
  constructor
  · intro h2 h3
    simp [TIFFSink.setitem, h2, h3]
  · intro h3
    simp [TIFFSink.setitem, h3]

/-- Claim C8 witness: a 4-axis write on a concrete sink fails with the
assertion error. -/
theorem tiffsink_setitem_axis_count_errors_witness :
    TIFFSink.setitem infoW st0 key4 item0 = Except.error PyErr.assertionError :=
  (tiffsink_setitem_axis_count_errors infoW st0 key4 item0).1 (by decide) (by decide)

/-- Claim C9 counterexample: on a sink built over the transient
":mem:" destination, calling close (even twice) never releases the
transient MemoryFile — it stays held and unclosed, so close does not
release the transient resource as the claim states. -/
theorem tiffsink_close_leaves_transient :
    (TIFFSink.close (TIFFSink.close TIFFSink.initMem)).memMineClosed = false ∧
    (TIFFSink.close (TIFFSink.close TIFFSink.initMem)).memMine = true := by decide

/-- Claim C9 (amended): TIFFSink.close is idempotent (a second close
changes nothing), but the transient ":mem:" resource is released only
by the finalizer __del__ — which does release it, clears the
reference so a repeated finalizer run has no further effect, while
close alone leaves the transient resource unreleased. -/
theorem tiffsink_close_idempotent_del_releases :
    (∀ s : TIFFSinkRes, TIFFSink.close (TIFFSink.close s) = TIFFSink.close s) ∧
    (TIFFSink.del TIFFSink.initMem).memMineClosed = true ∧
    TIFFSink.del (TIFFSink.del TIFFSink.initMem) = TIFFSink.del TIFFSink.initMem ∧
    (TIFFSink.close TIFFSink.initMem).memMineClosed = false :=
  ⟨fun _ => rfl, by decide, by decide, by decide⟩

/-- Claim C10: every accepted 2-axis windowed write appends exactly
one backend write, to band index 1, so no band other than 1 is ever
written through the 2-axis path, whatever the descriptor band count. -/
theorem tiffsink_write_band_one (info : GeoRasterInfo) (st : TIFFSinkState)
    (key : List ROI) (item : NArr) (st2 : TIFFSinkState)
    (h : TIFFSink.setitem info st key item = Except.ok st2) :
    st2.writes = st.writes ++ [(1, Window.from_slices key info.height info.width, item)] ∧
    ∀ b win blk, (b, win, blk) ∈ st2.writes → (b, win, blk) ∈ st.writes ∨ b = 1 := by
  unfold TIFFSink.setitem at h
  by_cases h23 : key.length = 2 ∨ key.length = 3
  · rw [if_pos h23] at h
    by_cases h2 : key.length = 2
    · rw [if_pos h2] at h
      cases h
      constructor
      · rfl
      · intro b win blk hmem
        rcases List.mem_append.mp hmem with hm | hm
        · exact Or.inl hm
        · right
          simp at hm
          exact hm.1
    · rw [if_neg h2] at h
      split at h <;> simp at h
  · rw [if_neg h23] at h
    simp at h

/-- Claim C10 witness: one successful 2-axis write on an empty sink
appends exactly the band-1 write. -/
theorem tiffsink_write_band_one_witness :
    st1.writes = st0.writes ++ [(1, Window.from_slices key2 infoW.height infoW.width, item0)] :=
  (tiffsink_write_band_one infoW st0 key2 item0 st1 rfl).1

/-- Claim C7: applying roi_shrink2 twice yields the ROI whose every
specified integer component is the original floor-divided by 4, with
unspecified (None) components preserved as unspecified, for indices,
slices and (recursively) tuples. -/
theorem roi_shrink2_twice_div4 (r : ROI) : roi_shrink2 (roi_shrink2 r) = roiDiv4 r :=
  roi_shrink2_twice_aux r

/-- Wrapping is the identity on values representable in the dtype. -/
theorem wrap_eq_self (d : DType) (x : Int) (h : d.inRange x) : wrap d x = x := by
  cases d <;>
    simp only [wrap, DType.inRange, DType.minVal, DType.maxVal, DType.modulus] at * <;> omega

/-- Every value of a dtype is representable in its accumulator dtype. -/
theorem inRange_wkDtype (d : DType) (x : Int) (h : d.inRange x) : (wkDtype d).inRange x := by
  cases d <;>
    simp only [wkDtype, DType.itemsize, DType.bits, DType.inRange, DType.minVal,
      DType.maxVal] at * <;>
    norm_num <;> omega

/-- Raw evaluation of the downsampler on a symbolic 2x2 block
[[a, b], [c, e]]: one output element, the truncated quarter of the
wrapped sum of the wrapped column sums of the wrapped elements. -/
theorem shrink2Arr_mk2x2_obs (d : DType) (a b c e : Int) :
    obsArr (COGSink.shrink2Arr (mk2x2 d a b c e)) =
      some (1, 1, wrap d (truncDiv4 (wrap (wkDtype d)
        (wrap (wkDtype d) (wrap (wkDtype d) a + wrap (wkDtype d) c) +
         wrap (wkDtype d) (wrap (wkDtype d) b + wrap (wkDtype d) e))))) := by
  simp only [COGSink.shrink2Arr, mk2x2, sliceRows, sliceCols, astypeArr, addB, bcastDim, bidx,
    divCast, obsArr]
  norm_num

/-- The truncated quarter of the accumulated sum of a 2x2 neighborhood
of representable values is itself representable in the element dtype,
so the final cast of the downsampler does not change it. -/
theorem truncDiv4_S_inRange (d : DType) (a b c e : Int)
    (ha : d.inRange a) (hb : d.inRange b) (hc : d.inRange c) (he : d.inRange e) :
    d.inRange (truncDiv4 (wrap (wkDtype d)
      (wrap (wkDtype d) (a + c) + wrap (wkDtype d) (b + e)))) := by
  cases d <;>
    simp only [wkDtype, DType.itemsize, DType.bits, DType.inRange, DType.minVal, DType.maxVal,
      DType.modulus, wrap, truncDiv4] at * <;>
    norm_num <;> split_ifs <;> omega

/-- Broadcasting two equal axis extents succeeds with that extent. -/
theorem bcastDim_self (m : Nat) : bcastDim m m = some m := by simp [bcastDim]

/-- Broadcasting indexing is the identity inside the axis extent. -/
theorem bidx_of_lt (r i : Nat) (h : i < r) : bidx r i = i := by
  unfold bidx
  split
  next h1 => omega
  next h1 => rfl

/-- Adding two arrays of identical shape succeeds, with the shape kept
and elementwise wrapped sums. -/
theorem addB_same (a b : NArr) (r c : Nat)
    (har : a.rows = r) (hbr : b.rows = r) (hac : a.cols = c) (hbc : b.cols = c) :
    addB a b = some ⟨a.dtype, r, c, fun i j =>
      wrap a.dtype (a.data (bidx r i) (bidx c j) + b.data (bidx r i) (bidx c j))⟩ := by
  unfold addB
  rw [har, hbr, hac, hbc, bcastDim_self, bcastDim_self]

/-- Specification form of addB on same-shape arrays: shape, dtype and
the elements inside the shape. -/
theorem addB_spec (a b : NArr) (r c : Nat)
    (har : a.rows = r) (hbr : b.rows = r) (hac : a.cols = c) (hbc : b.cols = c) :
    ∃ t, addB a b = some t ∧ t.dtype = a.dtype ∧ t.rows = r ∧ t.cols = c ∧
      ∀ i j, i < r → j < c → t.data i j = wrap a.dtype (a.data i j + b.data i j) := by
  refine ⟨_, addB_same a b r c har hbr hac hbc, rfl, rfl, rfl, ?_⟩
  intro i j hi hj
  simp only [bidx_of_lt r i hi, bidx_of_lt c j hj]

/-- Claim C1 (amended): on a 2x2 neighborhood [[a, b], [c, e]] of
values of an integer element type, the downsampler accumulates the
four values in int32 when the element type is at most 16 bits wide
(then without any possibility of wrapping, second conjunct), otherwise
in the element type itself with wrapping, and divides the sum by 4 by
truncation toward zero — not floor division — before the (here
value-preserving) cast back to the element type. -/
theorem cog_shrink2_neighborhood (d : DType) (a b c e : Int)
    (ha : d.inRange a) (hb : d.inRange b) (hc : d.inRange c) (he : d.inRange e) :
    obsArr (COGSink.shrink2Arr (mk2x2 d a b c e)) =
      some (1, 1, truncDiv4 (wrap (wkDtype d)
        (wrap (wkDtype d) (a + c) + wrap (wkDtype d) (b + e)))) ∧
    (d.itemsize ≤ 2 →
      wrap (wkDtype d) (wrap (wkDtype d) (a + c) + wrap (wkDtype d) (b + e)) = a + b + c + e) := by
  constructor
  · rw [shrink2Arr_mk2x2_obs,
      wrap_eq_self _ _ (inRange_wkDtype d a ha), wrap_eq_self _ _ (inRange_wkDtype d b hb),
      wrap_eq_self _ _ (inRange_wkDtype d c hc), wrap_eq_self _ _ (inRange_wkDtype d e he),
      wrap_eq_self _ _ (truncDiv4_S_inRange d a b c e ha hb hc he)]
  · intro hsz
    cases d
    case uint32 => exact absurd hsz (by decide)
    case int32 => exact absurd hsz (by decide)
    all_goals
      simp only [wkDtype, DType.itemsize, DType.bits, DType.inRange, DType.minVal,
        DType.maxVal, DType.modulus, wrap] at ha hb hc he ⊢
    all_goals norm_num
    all_goals omega

/-- Claim C1 witness: the neighborhood law instantiated at the int16
block [[-1, -1], [-1, -2]]. -/
theorem cog_shrink2_neighborhood_witness :
    obsArr (COGSink.shrink2Arr (mk2x2 DType.int16 (-1) (-1) (-1) (-2))) =
      some (1, 1, truncDiv4 (wrap (wkDtype DType.int16)
        (wrap (wkDtype DType.int16) (-1 + -1) + wrap (wkDtype DType.int16) (-1 + -2)))) :=
  (cog_shrink2_neighborhood DType.int16 (-1) (-1) (-1) (-2)
    (by decide) (by decide) (by decide) (by decide)).1

/-- Claim C1 counterexample: the int16 neighborhood [[-1, -1], [-1, -2]]
sums to -5; the code produces -1 (truncation toward zero of -5/4),
while the floor of -5/4 claimed by the specification is -2. -/
theorem cog_shrink2_negative_sum_not_floor :
    obsArr (COGSink.shrink2Arr (mk2x2 DType.int16 (-1) (-1) (-1) (-2))) = some (1, 1, -1) ∧
    ((-1 : Int) + -1 + -1 + -2) / 4 = -2 := by decide

/-- Claim C2 (amended): on a block with even height 2m and even width
2n the downsampler returns normally with a block of shape (m, n) whose
every element is derived from its own 2x2 neighborhood of the input
(accumulated column sums of row sums, divided by 4 with truncation,
cast back). -/
theorem cog_shrink2_even (xx : NArr) (m n : Nat) (hr : xx.rows = 2 * m) (hc : xx.cols = 2 * n) :
    ∃ res, COGSink.shrink2Arr xx = some res ∧ res.dtype = xx.dtype ∧
      res.rows = m ∧ res.cols = n ∧
      ∀ i j, i < m → j < n → res.data i j =
        wrap xx.dtype (truncDiv4 (wrap (wkDtype xx.dtype)
          (wrap (wkDtype xx.dtype)
            (wrap (wkDtype xx.dtype) (xx.data (2 * i) (2 * j)) +
             wrap (wkDtype xx.dtype) (xx.data (2 * i + 1) (2 * j))) +
           wrap (wkDtype xx.dtype)
            (wrap (wkDtype xx.dtype) (xx.data (2 * i) (2 * j + 1)) +
             wrap (wkDtype xx.dtype) (xx.data (2 * i + 1) (2 * j + 1)))))) := by
  obtain ⟨T, hT, hTd, hTr, hTc, hTdata⟩ :=
    addB_spec (astypeArr (wkDtype xx.dtype) (sliceRows xx 0))
      (astypeArr (wkDtype xx.dtype) (sliceRows xx 1)) m (2 * n)
      (by simp [astypeArr, sliceRows, hr]; omega)
      (by simp [astypeArr, sliceRows, hr]; omega)
      (by simp [astypeArr, sliceRows, hc])
      (by simp [astypeArr, sliceRows, hc])
  obtain ⟨U, hU, hUd, hUr, hUc, hUdata⟩ :=
    addB_spec (sliceCols T 0) (sliceCols T 1) m n
      (by simp [sliceCols, hTr])
      (by simp [sliceCols, hTr])
      (by simp [sliceCols, hTc]; omega)
      (by simp [sliceCols, hTc]; omega)
  refine ⟨divCast xx.dtype U, ?_, rfl, ?_, ?_, ?_⟩
  · simp only [COGSink.shrink2Arr, hT, hU]
  · simpa [divCast] using hUr
  · simpa [divCast] using hUc
  · intro i j him hjn
    have e1 : U.data i j =
        wrap (wkDtype xx.dtype) ((sliceCols T 0).data i j + (sliceCols T 1).data i j) := by
      have h0 := hUdata i j him hjn
      rwa [show (sliceCols T 0).dtype = wkDtype xx.dtype by simpa [sliceCols] using hTd] at h0
    have e2 : (sliceCols T 0).data i j = T.data i (2 * j) := by simp [sliceCols]
    have e3 : (sliceCols T 1).data i j = T.data i (2 * j + 1) := by
      simp [sliceCols, Nat.add_comm]
    have e4 : T.data i (2 * j) =
        wrap (wkDtype xx.dtype)
          ((astypeArr (wkDtype xx.dtype) (sliceRows xx 0)).data i (2 * j) +
           (astypeArr (wkDtype xx.dtype) (sliceRows xx 1)).data i (2 * j)) := by
      have h0 := hTdata i (2 * j) him (by omega)
      rwa [show (astypeArr (wkDtype xx.dtype) (sliceRows xx 0)).dtype = wkDtype xx.dtype
        from rfl] at h0
    have e5 : T.data i (2 * j + 1) =
        wrap (wkDtype xx.dtype)
          ((astypeArr (wkDtype xx.dtype) (sliceRows xx 0)).data i (2 * j + 1) +
           (astypeArr (wkDtype xx.dtype) (sliceRows xx 1)).data i (2 * j + 1)) := by
      have h0 := hTdata i (2 * j + 1) him (by omega)
      rwa [show (astypeArr (wkDtype xx.dtype) (sliceRows xx 0)).dtype = wkDtype xx.dtype
        from rfl] at h0
    have e6 : ∀ jj, (astypeArr (wkDtype xx.dtype) (sliceRows xx 0)).data i jj =
        wrap (wkDtype xx.dtype) (xx.data (2 * i) jj) := by
      intro jj; simp [astypeArr, sliceRows]
    have e7 : ∀ jj, (astypeArr (wkDtype xx.dtype) (sliceRows xx 1)).data i jj =
        wrap (wkDtype xx.dtype) (xx.data (2 * i + 1) jj) := by
      intro jj; simp [astypeArr, sliceRows, Nat.add_comm]
    show wrap xx.dtype (truncDiv4 (U.data i j)) = _
    rw [e1, e2, e3, e4, e5, e6, e6, e7, e7]

/-- Claim C2 witness: the even-shape law instantiated at a concrete
2x2 uint8 block, giving a successful downsample. -/
theorem cog_shrink2_even_witness :
    COGSink.shrink2Arr (mk2x2 DType.uint8 1 2 3 4) ≠ none := by
  obtain ⟨res, hres, -, -, -, -⟩ := cog_shrink2_even (mk2x2 DType.uint8 1 2 3 4) 1 1 rfl rfl
  simp [hres]

/-- Claim C2 counterexample: a 5 x 2 block (odd number of rows) makes
the downsampler fail with a broadcasting ValueError — the even and odd
row slices have 3 and 2 rows — instead of dropping the trailing odd
row and returning a (2, 1) block as the claim states. -/
theorem cog_shrink2_odd_rows_fails : COGSink.shrink2Arr arr5x2 = none := rfl

/-- Claim C6 (amended): downsampling a uniform 2x2 block of value v of
an integer element type yields exactly v provided the fourfold sum 4v
is representable in the accumulator dtype; for element types of at
most 2 bytes the accumulator is int32 and that condition holds for
every representable v (second conjunct), while wider element types can
overflow. -/
theorem cog_shrink2_uniform (d : DType) (v : Int) (hv : d.inRange v)
    (hacc : (wkDtype d).inRange (4 * v)) :
    obsArr (COGSink.shrink2Arr (mk2x2 d v v v v)) = some (1, 1, v) ∧
    (d.itemsize ≤ 2 → ∀ w : Int, d.inRange w → (wkDtype d).inRange (4 * w)) := by
  constructor
  · rw [shrink2Arr_mk2x2_obs]
    simp only [Option.some.injEq, Prod.mk.injEq, true_and]
    cases d <;>
      simp only [wkDtype, DType.itemsize, DType.bits, DType.inRange, DType.minVal,
        DType.maxVal, DType.modulus, wrap, truncDiv4] at hv hacc ⊢ <;>
      norm_num at hv hacc ⊢ <;>
      split_ifs <;> omega
  · intro hsz w hw
    cases d
    case uint32 => exact absurd hsz (by decide)
    case int32 => exact absurd hsz (by decide)
    all_goals
      simp only [wkDtype, DType.itemsize, DType.bits, DType.inRange, DType.minVal,
        DType.maxVal, DType.modulus] at hw ⊢
    all_goals norm_num
    all_goals omega

/-- Claim C6 witness: a uniform uint16 block of the maximal value
65535 downsamples to exactly 65535. -/
theorem cog_shrink2_uniform_witness :
    obsArr (COGSink.shrink2Arr (mk2x2 DType.uint16 65535 65535 65535 65535)) =
      some (1, 1, 65535) :=
  (cog_shrink2_uniform DType.uint16 65535 (by decide) (by decide)).1

/-- Claim C6 counterexample: a uniform int32 block of v = 2 ^ 30
downsamples to 0, not v — the fourfold sum wraps to 0 in the int32
accumulator — so the claim fails for wide element types. -/
theorem cog_shrink2_uniform_overflow :
    obsArr (COGSink.shrink2Arr
        (mk2x2 DType.int32 1073741824 1073741824 1073741824 1073741824)) =
      some (1, 1, 0) ∧ (0 : Int) ≠ 1073741824 := by decide
